import Mathlib

/-!
Verification of the Bisect Sync Blender add-ons.

This file is a shallow embedding of the two synchronization add-ons of the
repository:

* src/bridge-server/blender-addon/bisect_sync_v2.py  (the unified v2 add-on)
* src/tools/bridge-server/blender-addon/bisect_sync.py  (the legacy v1 add-on)

Pure protocol logic (envelope construction, dispatch routing, the echo guard
and the rate gate) is translated function by function.  The external Blender
API (bpy, mathutils) is modelled by explicit scene and object records carrying
exactly the attributes the add-ons read and write; wall-clock time is an
explicit rational parameter; the websocket is modelled by the connected flag,
the presence of a socket object, and an explicit outcome of the underlying
send call.  JSON values are a small inductive tree with rational numbers.
Raw wire frames are modelled as either a JSON tree (a string that json.loads
parses to that tree) or an unparseable text; json.dumps followed by json.loads
is the identity on JSON-compatible data, which is what the parsed case
records.
-/

namespace BisectSync

/-- JSON value tree.  Numbers are rationals, which covers every numeric
literal the protocol exchanges (integer millisecond timestamps and decimal
coordinates). -/
inductive Json where
  | null : Json
  | bool (b : Bool) : Json
  | num (q : ℚ) : Json
  | str (s : String) : Json
  | arr (elems : List Json) : Json
  | obj (fields : List (String × Json)) : Json

/-- Lookup of a key in a JSON object field list, first match wins; this is the
model of a Python dict access on the decoded message. -/
def lookupField : List (String × Json) → String → Option Json
  | [], _ => none
  | (k, v) :: rest, key => if k = key then some v else lookupField rest key

/-- Python truthiness of a JSON value: None, False, 0, empty string, empty
list and empty dict are falsy. -/
def jsonFalsy : Json → Bool
  | Json.null => true
  | Json.bool b => !b
  | Json.num q => q == 0
  | Json.str s => s == ""
  | Json.arr l => l.isEmpty
  | Json.obj f => f.isEmpty

/-- Python expression (a or b) on JSON values: b whenever a is falsy. -/
def pyOr (a b : Json) : Json := if jsonFalsy a then b else a

/-- Python expression (a or b) on strings: b whenever a is empty. -/
def pyOrStr (a b : String) : String := if a == "" then b else a

/-- Millisecond timestamp, the value of int(time.time() * 1000).  Wall-clock
time is a nonnegative rational, on which Python int() truncation coincides
with the floor. -/
def timestamp_ms (t : ℚ) : ℤ := Int.floor (t * 1000)

/-- Source bisect_sync_v2.py lines 120-127 (identical in v1 lines 84-91):
create_message builds the wire envelope.  The now argument is the wall clock,
state_session_id is sync_state.session_id, payload and session_id are the two
optional arguments of the Python function, whose defaults go through the
Python or-expressions of the source. -/
def create_message (now : ℚ) (state_session_id : String) (msg_type : String)
    (payload : Option Json) (session_id : Option String) : Json :=
  Json.obj [(("type"), Json.str msg_type),
    (("sessionId"), Json.str (pyOrStr (session_id.getD ("")) state_session_id)),
    (("timestamp"), Json.num ((timestamp_ms now : ℤ) : ℚ)),
    (("payload"), (match payload with
      | none => Json.obj []
      | some p => pyOr p (Json.obj [])))]

/-- Raw inbound wire frame: either a text that json.loads parses to the given
JSON tree, or a text that json.loads rejects. -/
inductive RawMsg where
  | parsed (j : Json) : RawMsg
  | invalid (text : String) : RawMsg

/-- Model of json.loads on a raw frame: the parsed tree, or the ValueError
raised on unparseable text. -/
def json_loads : RawMsg → Except String Json
  | RawMsg.parsed j => Except.ok j
  | RawMsg.invalid s => Except.error ("json.decoder.JSONDecodeError near: " ++ s)

/-- Decoded envelope view: the four fields the dispatcher reads off a parsed
message with dict.get, each absent when missing (payload defaults to the
empty map, as in line 461 of the source). -/
structure Envelope where
  type : Option Json
  sessionId : Option Json
  timestamp : Option Json
  payload : Json

/-- Decode of a wire frame, the read side of the codec: json.loads followed by
the dict.get field extraction performed at the top of
process_incoming_messages (source lines 458-461), extended to the sessionId
and timestamp fields of the bit-exact wire object of the spec. -/
def decode (raw : RawMsg) : Except String Envelope :=
  match json_loads raw with
  | Except.error e => Except.error e
  | Except.ok j =>
    match j with
    | Json.obj fields =>
      Except.ok { type := lookupField fields ("type"),
                  sessionId := lookupField fields ("sessionId"),
                  timestamp := lookupField fields ("timestamp"),
                  payload := (lookupField fields ("payload")).getD (Json.obj []) }
    | _ => Except.error ("AttributeError: message is not a dict")

/-- Source bisect_sync_v2.py lines 193-200: the on_open callback of the
websocket thread.  It sends exactly one frame, the join envelope; the
session_id argument of ws_thread_func and sync_state.session_id hold the same
string, set together by start_connection (lines 216-228). -/
def on_open_frames (now : ℚ) (session_id : String) : List Json :=
  [create_message now session_id ("join")
    (some (Json.obj [(("sessionId"), Json.str session_id),
                     (("clientType"), Json.str ("blender"))]))
    none]

/-- Join frame claimed by the spec scenario A, written out literally from the
words of the spec for comparison with the frame the source produces. -/
def spec_claimed_join_frame : Json :=
  Json.obj [(("type"), Json.str ("join")),
    (("sessionId"), Json.str ("scene42")),
    (("payload"), Json.obj [(("sessionId"), Json.str ("scene42")),
                            (("clientType"), Json.str ("host"))])]

/-! ## Scene model

The Blender data the add-ons touch: objects with transforms, material slots
and modifiers, materials with a Principled BSDF node, and the selection and
active-object state of the context.  Object and material names are unique in
Blender, so references between records are by name. -/

/-- Three-component vector, the model of mathutils.Vector and of the location
and scale attributes. -/
structure Vec3 where
  x : ℚ
  y : ℚ
  z : ℚ
deriving DecidableEq

/-- Quaternion in the mathutils storage order: the first component w is the
scalar part, followed by the vector part x, y, z.  The constructor
Quaternion((a, b, c, d)) of mathutils yields w = a, x = b, y = c, z = d. -/
structure Quat where
  w : ℚ
  x : ℚ
  y : ℚ
  z : ℚ
deriving DecidableEq

/-- Euler rotation, modelled abstractly by the rotation it denotes: the
mathutils conversions to_quaternion and to_euler are inverse on the denoted
rotation, so an Euler value is carried as its quaternion. -/
structure Euler where
  rot : Quat
deriving DecidableEq

/-- Model of mathutils Euler.to_quaternion. -/
def Euler.to_quaternion (e : Euler) : Quat := e.rot

/-- Model of mathutils Quaternion.to_euler. -/
def Quat.to_euler (q : Quat) : Euler := ⟨q⟩

/-- Identity rotation, the rotation of a freshly created object. -/
def identityQuat : Quat := ⟨1, 0, 0, 0⟩

/-- Blender material as the add-ons see it: the diffuse viewport color, and
the Base Color, Roughness and Metallic inputs of the Principled BSDF node
when the material uses nodes and such a node exists. -/
structure BMat where
  name : String
  use_nodes : Bool
  has_principled : Bool
  base_color : List ℚ
  roughness : ℚ
  metalness : ℚ
  diffuse_color : List ℚ
deriving DecidableEq

/-- Blender object as the add-ons see it.  material_slots models
obj.data.materials (slots may hold no material); data_light_type, data_color,
data_energy and data_lens model the obj.data attributes read for LIGHT and
CAMERA objects. -/
structure BObject where
  name : String
  type : String
  location : Vec3
  rotation_mode : String
  rotation_quaternion : Quat
  rotation_euler : Euler
  scale : Vec3
  parent : Option String
  visible : Bool
  material_slots : List (Option String)
  modifiers : List (String × ℚ)
  data_light_type : String
  data_color : List ℚ
  data_energy : ℚ
  data_lens : ℚ
  shade_smooth : Bool
deriving DecidableEq

/-- Blender scene state shared by all handlers: bpy.data.objects,
bpy.data.materials, the selected objects and the active object of the
context. -/
structure Scene where
  objects : List BObject
  materials : List BMat
  selected : List String
  active_object : Option String
deriving DecidableEq

/-- Model of bpy.data.objects.get on a string name. -/
def Scene.getObject (s : Scene) (name : String) : Option BObject :=
  s.objects.find? (fun o => o.name == name)

/-- In-place mutation of the (unique) object of the given name. -/
def Scene.setObject (s : Scene) (name : String) (f : BObject → BObject) : Scene :=
  { s with objects := s.objects.map (fun o => if o.name == name then f o else o) }

/-- Model of bpy.data.materials.get on a string name. -/
def Scene.getMaterial (s : Scene) (name : String) : Option BMat :=
  s.materials.find? (fun m => m.name == name)

/-- In-place mutation of the (unique) material of the given name. -/
def Scene.setMaterial (s : Scene) (name : String) (f : BMat → BMat) : Scene :=
  { s with materials := s.materials.map (fun m => if m.name == name then f m else m) }

/-! ## JSON argument readers

Each reader mirrors how the corresponding Python value is consumed: a raised
TypeError (wrong shape fed to a Blender attribute or constructor) is the none
case, reported by the caller as a caught exception. -/

/-- Numeric JSON value. -/
def asNum : Json → Option ℚ
  | Json.num q => some q
  | _ => none

/-- All-numeric list of JSON values. -/
def asNums : List Json → Option (List ℚ)
  | [] => some []
  | j :: rest =>
    match asNum j, asNums rest with
    | some q, some qs => some (q :: qs)
    | _, _ => none

/-- Reading a JSON value as a three-float sequence, as the assignments
obj.location = Vector(position) and obj.scale = Vector(scale) require. -/
def asVec3 : Json → Option Vec3
  | Json.arr [a, b, c] =>
    match asNum a, asNum b, asNum c with
    | some x, some y, some z => some ⟨x, y, z⟩
    | _, _, _ => none
  | _ => none

/-- Indexing a JSON array, the model of a Python subscript that raises when
out of range or on a non-list. -/
def idx (j : Json) (i : ℕ) : Option Json :=
  match j with
  | Json.arr l => l.get? i
  | _ => none

/-- Reading the wire rotation list the way the v2 add-on does (source line
350): Quaternion((rotation[3], rotation[0], rotation[1], rotation[2])), so
the element at index 3 lands in the scalar slot w. -/
def readQuatXYZW (rotation : Json) : Option Quat :=
  match idx rotation 3, idx rotation 0, idx rotation 1, idx rotation 2 with
  | some a, some b, some c, some d =>
    match asNum a, asNum b, asNum c, asNum d with
    | some qw, some qx, some qy, some qz => some ⟨qw, qx, qy, qz⟩
    | _, _, _, _ => none
  | _, _, _, _ => none

/-- Reading the wire rotation list the way the v1 add-on does (source lines
210 and 213): the four-element list is consumed in the native constructor
order of mathutils, so the element at index 0 lands in the scalar slot w. -/
def readQuatWXYZ4 : Json → Option Quat
  | Json.arr [a, b, c, d] =>
    match asNum a, asNum b, asNum c, asNum d with
    | some qw, some qx, some qy, some qz => some ⟨qw, qx, qy, qz⟩
    | _, _, _, _ => none
  | _ => none

/-- Set insertion on the EchoGuard, the model of Python set.add. -/
def insertSet (a : String) (l : List String) : List String :=
  if a ∈ l then l else a :: l

/-- Set removal on the EchoGuard, the model of Python set.discard. -/
def removeSet (a : String) (l : List String) : List String :=
  l.filter (fun b => b != a)

/-! ## The v2 transform paths -/

/-- Source bisect_sync_v2.py lines 130-143: get_object_transform, as the
field list of the returned dict.  The rotation is emitted in the order
x, y, z, w regardless of the rotation mode of the object. -/
def get_object_transform_fields (obj : BObject) : List (String × Json) :=
  let rot := if obj.rotation_mode == ("QUATERNION") then obj.rotation_quaternion
             else obj.rotation_euler.to_quaternion
  [(("position"), Json.arr [Json.num obj.location.x, Json.num obj.location.y,
                            Json.num obj.location.z]),
   (("rotation"), Json.arr [Json.num rot.x, Json.num rot.y, Json.num rot.z,
                            Json.num rot.w]),
   (("scale"), Json.arr [Json.num obj.scale.x, Json.num obj.scale.y,
                         Json.num obj.scale.z])]

/-- Source bisect_sync_v2.py lines 130-143: get_object_transform as a JSON
dict. -/
def get_object_transform (obj : BObject) : Json :=
  Json.obj (get_object_transform_fields obj)

/-- Source bisect_sync_v2.py lines 338-356: apply_transform.  The result is
the scene and EchoGuard after the call together with the message of the
exception raised by a malformed argument, if any; mutations performed before
the raise are kept, matching the Python execution order (the EchoGuard insert
on line 345 precedes every attribute assignment). -/
def apply_transform (scene : Scene) (ignore : List String) (obj_id : Option Json)
    (position rotation scale : Json) : (Scene × List String) × Option String :=
  match obj_id with
  | some (Json.str obj_name) =>
    (match scene.getObject obj_name with
     | none => ((scene, ignore), none)
     | some obj =>
       let ignore1 := insertSet obj_name ignore
       (match asVec3 position with
        | none => ((scene, ignore1), some ("TypeError: location expects three numbers"))
        | some pos =>
          let scene1 := scene.setObject obj_name (fun o => { o with location := pos })
          (match readQuatXYZW rotation with
           | none => ((scene1, ignore1), some ("TypeError: invalid quaternion components"))
           | some q =>
             let scene2 :=
               if obj.rotation_mode == ("QUATERNION") then
                 scene1.setObject obj_name (fun o => { o with rotation_quaternion := q })
               else
                 scene1.setObject obj_name (fun o => { o with rotation_euler := q.to_euler })
             (match asVec3 scale with
              | none => ((scene2, ignore1), some ("TypeError: scale expects three numbers"))
              | some scl =>
                ((scene2.setObject obj_name (fun o => { o with scale := scl }), ignore1),
                 none)))))
  | _ => ((scene, ignore), some ("TypeError: objects.get expects a string name"))

/-- Source bisect_sync.py (v1) lines 202-215: the legacy apply_transform.
There is no EchoGuard in v1.  The rotation list received off the wire is
assigned directly: obj.rotation_quaternion = rotation on the quaternion
branch and Quaternion(rotation) on the euler branch, both of which consume
the list in the native (w, x, y, z) order of mathutils. -/
def v1_apply_transform (scene : Scene) (obj_id : Option Json)
    (position rotation scale : Json) : Scene × Option String :=
  match obj_id with
  | some (Json.str obj_name) =>
    (match scene.getObject obj_name with
     | none => (scene, none)
     | some obj =>
       match asVec3 position with
       | none => (scene, some ("TypeError: location expects three numbers"))
       | some pos =>
         let scene1 := scene.setObject obj_name (fun o => { o with location := pos })
         (match readQuatWXYZ4 rotation with
          | none => (scene1, some ("TypeError: invalid quaternion components"))
          | some q =>
            let scene2 :=
              if obj.rotation_mode == ("QUATERNION") then
                scene1.setObject obj_name (fun o => { o with rotation_quaternion := q })
              else
                scene1.setObject obj_name (fun o => { o with rotation_euler := q.to_euler })
            (match asVec3 scale with
             | none => (scene2, some ("TypeError: scale expects three numbers"))
             | some scl =>
               (scene2.setObject obj_name (fun o => { o with scale := scl }), none))))
  | _ => (scene, some ("TypeError: objects.get expects a string name"))

/-! ## Engine state and sends -/

/-- Global synchronization state (class BisectSyncState, source lines 98-113)
together with the scene the handlers mutate.  ws is the presence of a socket
object (sync_state.ws is not None); client_id keeps the raw JSON value the
joined handler stores. -/
structure Engine where
  scene : Scene
  connected : Bool
  ws : Bool
  session_id : String
  client_id : Json
  last_sync_time : ℚ
  ignore_next_update : List String
  selected_objects : List String

/-- Outbound message as the handlers produce it: the message type and the
payload handed to send_message, which wraps them with create_message. -/
structure OutMsg where
  type : String
  payload : Json

/-- Emission performed by send_message (source lines 244-255) when the socket
call itself succeeds: the payload reaches the wire exactly when the connected
flag is set and a socket object exists.  The socket-failure path of
send_message is modelled separately by send_message_result. -/
def sendOut (e : Engine) (msg_type : String) (payload : Json) : List OutMsg :=
  if e.connected && e.ws then [⟨msg_type, payload⟩] else []

/-- Outcome of the underlying websocket send call for one invocation. -/
inductive SockRes where
  | ok : SockRes
  | exn (msg : String) : SockRes

/-- Source bisect_sync_v2.py lines 244-255: send_message.  Returns the boolean
result of the Python function together with the frames that reached the
socket; an exception thrown by ws.send is caught inside send_message and
turned into the return value False, never re-raised. -/
def send_message_result (e : Engine) (now : ℚ) (msg_type : String) (payload : Json)
    (sock : SockRes) : Bool × List Json :=
  if !e.connected || !e.ws then (false, [])
  else
    match sock with
    | SockRes.ok => (true, [create_message now e.session_id msg_type (some payload) none])
    | SockRes.exn _ => (false, [])

/-- Source bisect_sync_v2.py lines 185-187: the on_error callback clears the
connected flag. -/
def on_error (e : Engine) : Engine := { e with connected := false }

/-- Payload of an outbound transform envelope (send_transform, source lines
258-264): the object id followed by the splatted transform dict. -/
def send_transform_payload (obj : BObject) : Json :=
  Json.obj ((("objectId"), Json.str obj.name) :: get_object_transform_fields obj)

/-- Source bisect_sync_v2.py lines 258-264: send_transform. -/
def send_transform (e : Engine) (obj : BObject) : List OutMsg :=
  sendOut e ("transform") (send_transform_payload obj)

/-- Source bisect_sync_v2.py lines 146-170: get_object_data.  The material
entry is present only for a MESH object whose first material slot holds a
material; slots reference materials of the scene by name. -/
def get_object_data (scene : Scene) (obj : BObject) : Json :=
  let base := [(("id"), Json.str obj.name), (("name"), Json.str obj.name),
               (("type"), Json.str obj.type)]
      ++ get_object_transform_fields obj
      ++ [(("parent"), match obj.parent with
                       | some p => Json.str p
                       | none => Json.null),
          (("visible"), Json.bool obj.visible)]
  let withMat :=
    if obj.type == ("MESH") && !obj.material_slots.isEmpty then
      match obj.material_slots.head? with
      | some (some mname) =>
        (match scene.getMaterial mname with
         | some m => base ++ [(("material"),
             Json.obj [(("name"), Json.str m.name),
                       (("color"), Json.arr ((m.diffuse_color.take 3).map Json.num))])]
         | none => base)
      | _ => base
    else base
  Json.obj withMat

/-- Light entry of the scene-state payload (source lines 287-295). -/
def light_data (obj : BObject) : Json :=
  Json.obj ([(("id"), Json.str obj.name), (("name"), Json.str obj.name),
    (("type"), Json.str obj.data_light_type),
    (("color"), Json.arr (obj.data_color.map Json.num)),
    (("energy"), Json.num obj.data_energy)] ++ get_object_transform_fields obj)

/-- Camera entry of the scene-state payload (source lines 296-302). -/
def camera_data (obj : BObject) : Json :=
  Json.obj ([(("id"), Json.str obj.name), (("name"), Json.str obj.name),
    (("lens"), Json.num obj.data_lens)] ++ get_object_transform_fields obj)

/-- Material entry of the scene-state payload (source lines 304-318): the
Principled BSDF values are added when the material uses nodes and such a node
is found. -/
def material_data_entry (m : BMat) : Json :=
  Json.obj ([(("id"), Json.str m.name), (("name"), Json.str m.name)] ++
    (if m.use_nodes && m.has_principled then
      [(("color"), Json.arr ((m.base_color.take 3).map Json.num)),
       (("roughness"), Json.num m.roughness),
       (("metalness"), Json.num m.metalness)]
     else []))

/-- Source bisect_sync_v2.py lines 274-331: send_scene_state.  The single
loop over scene objects partitions them by type; the result is the one
scene_state envelope, or nothing when disconnected. -/
def send_scene_state (e : Engine) : List OutMsg :=
  if !e.connected then []
  else
    let objects := (e.scene.objects.filter (fun o => o.type == ("MESH"))).map
        (fun o => get_object_data e.scene o)
    let lights := (e.scene.objects.filter (fun o => o.type == ("LIGHT"))).map light_data
    let cameras := (e.scene.objects.filter (fun o => o.type == ("CAMERA"))).map camera_data
    let materials := e.scene.materials.map material_data_entry
    let selection := e.scene.selected.map Json.str
    sendOut e ("scene_state") (Json.obj
      [(("objects"), Json.arr objects), (("materials"), Json.arr materials),
       (("lights"), Json.arr lights), (("cameras"), Json.arr cameras),
       (("selection"), Json.arr selection)])

/-! ## Material handlers -/

/-- A material freshly created by bpy.data.materials.new with use_nodes set
(source lines 369-370), carrying the Blender default Principled values and
viewport color. -/
def default_new_material (name : String) : BMat :=
  { name := name, use_nodes := true, has_principled := true,
    base_color := [(0.8 : ℚ), (0.8 : ℚ), (0.8 : ℚ), 1], roughness := (0.5 : ℚ),
    metalness := 0, diffuse_color := [(0.8 : ℚ), (0.8 : ℚ), (0.8 : ℚ), 1] }

/-- Base Color update step of the Principled node (source lines 376-378 and
506-507): the value must be a list whose first three elements are numbers,
extended with alpha 1. -/
def set_color (m : BMat) (props : List (String × Json)) : BMat × Option String :=
  match lookupField props ("color") with
  | none => (m, none)
  | some (Json.arr l) =>
    (match asNums (l.take 3) with
     | some cs =>
       if cs.length == 3 then ({ m with base_color := cs ++ [1] }, none)
       else (m, some ("TypeError: color expects at least three numbers"))
     | none => (m, some ("TypeError: color expects at least three numbers")))
  | some _ => (m, some ("TypeError: color expects a list"))

/-- Roughness update step of the Principled node (source lines 379-380 and
508-509). -/
def set_roughness (m : BMat) (props : List (String × Json)) : BMat × Option String :=
  match lookupField props ("roughness") with
  | none => (m, none)
  | some (Json.num q) => ({ m with roughness := q }, none)
  | some _ => (m, some ("TypeError: roughness expects a number"))

/-- Metallic update step of the Principled node (source lines 381-382 and
510-511). -/
def set_metalness (m : BMat) (props : List (String × Json)) : BMat × Option String :=
  match lookupField props ("metalness") with
  | none => (m, none)
  | some (Json.num q) => ({ m with metalness := q }, none)
  | some _ => (m, some ("TypeError: metalness expects a number"))

/-- Principled update sequence shared by apply_material and the
material_update branch: color, then roughness, then metalness, stopping at
the first raised assignment while keeping earlier mutations. -/
def principled_update (m : BMat) (props : List (String × Json)) : BMat × Option String :=
  match set_color m props with
  | (m1, some e) => (m1, some e)
  | (m1, none) =>
    match set_roughness m1 props with
    | (m2, some e) => (m2, some e)
    | (m2, none) => set_metalness m2 props

/-- Assignment of the material into the first slot of the object, appending a
slot when none exists (source lines 386-389). -/
def assign_slot (scene : Scene) (obj_name mat_name : String) : Scene :=
  scene.setObject obj_name (fun o =>
    match o.material_slots with
    | [] => { o with material_slots := [some mat_name] }
    | _ :: rest => { o with material_slots := some mat_name :: rest })

/-- Source bisect_sync_v2.py lines 358-391: apply_material.  Missing object
or non-MESH object is a silent no-op; a missing material is created with
default node values; property updates run only when the material uses nodes
and has a Principled node; the slot assignment happens only when no update
raised. -/
def apply_material (scene : Scene) (obj_id : Option Json) (material_data : Json) :
    Scene × Option String :=
  match obj_id with
  | some (Json.str obj_name) =>
    (match scene.getObject obj_name with
     | none => (scene, none)
     | some obj =>
       if obj.type != ("MESH") then (scene, none)
       else
         match material_data with
         | Json.obj mfields =>
           (match (lookupField mfields ("name")).getD (Json.str ("BisectMaterial")) with
            | Json.str mat_name =>
              let scene1 :=
                match scene.getMaterial mat_name with
                | some _ => scene
                | none => { scene with
                            materials := scene.materials ++ [default_new_material mat_name] }
              (match scene1.getMaterial mat_name with
               | none => (scene1, some ("KeyError: material creation failed"))
               | some mat =>
                 let step :=
                   if mat.use_nodes && mat.has_principled then
                     match principled_update mat mfields with
                     | (m2, err) => (scene1.setMaterial mat_name (fun _ => m2), err)
                   else (scene1, none)
                 match step with
                 | (scene2, some e) => (scene2, some e)
                 | (scene2, none) => (assign_slot scene2 obj_name mat_name, none))
            | _ => (scene, some ("TypeError: materials.get expects a string name")))
         | _ => (scene, some ("AttributeError: material data is not a dict")))
  | _ => (scene, some ("TypeError: objects.get expects a string name"))

/-- Source bisect_sync_v2.py lines 498-512: the material_update branch of the
dispatcher.  A missing material, or one without nodes, is a silent no-op; no
slot assignment happens here. -/
def material_update (scene : Scene) (mat_id : Option Json) (properties : Json) :
    Scene × Option String :=
  match mat_id with
  | some (Json.str name) =>
    (match scene.getMaterial name with
     | none => (scene, none)
     | some m =>
       if m.use_nodes && m.has_principled then
         match properties with
         | Json.obj props =>
           (match principled_update m props with
            | (m2, err) => (scene.setMaterial name (fun _ => m2), err))
         | _ => (scene, some ("TypeError: properties is not a dict"))
       else (scene, none))
  | _ => (scene, some ("TypeError: materials.get expects a string name"))

/-! ## Selection handler -/

/-- Loop body of the object_select branch (source lines 487-491): each
existing referenced object is selected and made active; missing ids are
skipped; the names stay a set. -/
def select_loop (scene : Scene) : List Json → Scene × Option String
  | [] => (scene, none)
  | idJ :: rest =>
    match idJ with
    | Json.str obj_id =>
      (match scene.getObject obj_id with
       | none => select_loop scene rest
       | some o =>
         select_loop { scene with
           selected := if o.name ∈ scene.selected then scene.selected
                       else scene.selected ++ [o.name],
           active_object := some o.name } rest)
    | _ => (scene, some ("TypeError: objects.get expects a string name"))

/-- Source bisect_sync_v2.py lines 484-491: the object_select branch.  The
select_all DESELECT operator clears the selection first (it does not clear
the active object); only then is objectIds iterated, so a malformed value
still leaves the selection cleared.  Python iteration yields the elements of
a list, the one-character strings of a string and the keys of a dict; any
other value raises TypeError after the clear. -/
def object_select (scene : Scene) (obj_idsJ : Json) : Scene × Option String :=
  let scene1 := { scene with selected := [] }
  match obj_idsJ with
  | Json.arr ids => select_loop scene1 ids
  | Json.str s => select_loop scene1 (s.data.map (fun c => Json.str (String.mk [c])))
  | Json.obj fields => select_loop scene1 (fields.map (fun kv => Json.str kv.1))
  | _ => (scene1, some ("TypeError: objectIds is not iterable"))

/-! ## Command executor -/

/-- String comparison of a JSON value against a literal, the model of a
Python equality test between a decoded value and a string. -/
def jsonEqStr (j : Json) (s : String) : Bool :=
  match j with
  | Json.str t => t == s
  | _ => false

/-- String comparison against a possibly missing JSON value; a missing value
(Python None) never equals a string. -/
def jsonEqStrOpt (j : Option Json) (s : String) : Bool :=
  match j with
  | some v => jsonEqStr v s
  | none => false

/-- Model of the Python str.upper attribute call, raising on a non-string;
the upper-casing maps over the character list so that it evaluates by
reduction. -/
def strUpper : Json → Option String
  | Json.str s => some (String.mk (s.data.map Char.toUpper))
  | _ => none

/-- Default primitive name Blender gives the object created by each of the
six recognized primitive-add operators (source lines 406-417); none when the
requested type matches no branch, in which case no operator runs. -/
def primitive_default_name (obj_type : String) : Option String :=
  if obj_type == ("CUBE") then some ("Cube")
  else if obj_type == ("SPHERE") then some ("Sphere")
  else if obj_type == ("CYLINDER") then some ("Cylinder")
  else if obj_type == ("PLANE") then some ("Plane")
  else if obj_type == ("CONE") then some ("Cone")
  else if obj_type == ("TORUS") then some ("Torus")
  else none

/-- Fresh MESH object as a primitive-add operator creates it: at the given
location, Euler rotation mode with identity rotation, unit scale, no parent,
visible, no materials and no modifiers. -/
def new_mesh_object (name : String) (loc : Vec3) : BObject :=
  { name := name, type := ("MESH"), location := loc,
    rotation_mode := ("XYZ"), rotation_quaternion := identityQuat,
    rotation_euler := ⟨identityQuat⟩, scale := ⟨1, 1, 1⟩, parent := none,
    visible := true, material_slots := [], modifiers := [],
    data_light_type := (""), data_color := [], data_energy := 0, data_lens := 0,
    shade_smooth := false }

/-- Effect of a primitive-add operator on the scene: the new object is
appended, selected alone and made active.  Blender uniquifies names
internally; the theorems below assume the default name is fresh. -/
def primitive_add (scene : Scene) (name : String) (loc : Vec3) : Scene :=
  { scene with
    objects := scene.objects ++ [new_mesh_object name loc],
    selected := [name], active_object := some name }

/-- Primitive branch of the create_object action (source lines 406-417): at
most one operator runs; the location list is consumed only by the operator
that runs. -/
def primitive_branch (scene : Scene) (obj_type : String) (locationJ : Json) :
    Scene × Option String :=
  match primitive_default_name obj_type with
  | none => (scene, none)
  | some dname =>
    match asVec3 locationJ with
    | none => (scene, some ("TypeError: location expects three numbers"))
    | some loc => (primitive_add scene dname loc, none)

/-- Renaming of an object: the object record and every reference to it by
name (parent links, selection, active object) move to the new name, matching
how Blender renames an identity in place. -/
def rename_object (scene : Scene) (old onew : String) : Scene :=
  { scene with
    objects := scene.objects.map (fun o =>
      let o1 := if o.name == old then { o with name := onew } else o
      if o1.parent == some old then { o1 with parent := some onew } else o1),
    selected := scene.selected.map (fun n => if n == old then onew else n),
    active_object := scene.active_object.map (fun n => if n == old then onew else n) }

/-- Removal of an object with do_unlink (source line 431): it disappears from
the object list, the selection and the active slot. -/
def remove_object (scene : Scene) (name : String) : Scene :=
  { scene with
    objects := scene.objects.filter (fun o => o.name != name),
    selected := scene.selected.filter (fun n => n != name),
    active_object := if scene.active_object == some name then none
                     else scene.active_object }

/-- Model of bpy.ops.object.modifier_add: the new modifier, created with its
Blender default parameter value, is appended to the modifier stack of the
active object; the operator fails when no object is active. -/
def add_modifier_to_active (scene : Scene) (kind : String) (dflt : ℚ) :
    Scene × Option String :=
  match scene.active_object with
  | none => (scene, some ("RuntimeError: operator poll failed, no active object"))
  | some a =>
    (scene.setObject a (fun o => { o with modifiers := o.modifiers ++ [(kind, dflt)] }),
     none)

/-- Overwriting the tuned parameter of the last modifier of a stack, the
model of an assignment to obj.modifiers[-1]. -/
def set_last_modifier_value (l : List (String × ℚ)) (q : ℚ) : List (String × ℚ) :=
  match l.getLast? with
  | none => l
  | some last => l.dropLast ++ [(last.1, q)]

/-- Assignment to obj.modifiers[-1] of the named object (source lines 444 and
447): raises IndexError when the object has no modifiers, TypeError when the
parameter is not a number. -/
def set_last_modifier_param (scene : Scene) (obj_name : String) (vJ : Json) :
    Scene × Option String :=
  match scene.getObject obj_name with
  | none => (scene, some ("KeyError: object not found"))
  | some o =>
    match o.modifiers.getLast? with
    | none => (scene, some ("IndexError: object has no modifiers"))
    | some _ =>
      match vJ with
      | Json.num q =>
        (scene.setObject obj_name
          (fun ob => { ob with modifiers := set_last_modifier_value ob.modifiers q }),
         none)
      | _ => (scene, some ("TypeError: modifier parameter expects a number"))

/-- Model of bpy.ops.object.shade_smooth: sets smooth shading on the selected
objects. -/
def shade_smooth_selected (scene : Scene) : Scene :=
  { scene with
    objects := scene.objects.map (fun o =>
      if o.name ∈ scene.selected then { o with shade_smooth := true } else o) }

/-- Modifier branches of the modify_mesh action (source lines 440-449).  The
SUBDIVIDE branch first makes the target object active; the BEVEL branch adds
to whatever object is currently active, then sets the width on the last
modifier of the target object, raising when the target has none. -/
def modify_mesh_apply (e : Engine) (obj_name modifier : String)
    (params : List (String × Json)) : (Engine × List OutMsg) × Option String :=
  if modifier == ("SUBDIVIDE") then
    let scene1 := { e.scene with active_object := some obj_name }
    match add_modifier_to_active scene1 ("SUBSURF") 1 with
    | (scene2, some err) => (({ e with scene := scene2 }, []), some err)
    | (scene2, none) =>
      let levelsJ := (lookupField params ("levels")).getD (Json.num 2)
      match set_last_modifier_param scene2 obj_name levelsJ with
      | (scene3, err) => (({ e with scene := scene3 }, []), err)
  else if modifier == ("BEVEL") then
    match add_modifier_to_active e.scene ("BEVEL") ((0.1 : ℚ)) with
    | (scene2, some err) => (({ e with scene := scene2 }, []), some err)
    | (scene2, none) =>
      let widthJ := (lookupField params ("width")).getD (Json.num ((0.1 : ℚ)))
      match set_last_modifier_param scene2 obj_name widthJ with
      | (scene3, err) => (({ e with scene := scene3 }, []), err)
  else if modifier == ("SMOOTH") then
    (({ e with scene := shade_smooth_selected e.scene }, []), none)
  else ((e, []), none)

/-- Source bisect_sync_v2.py lines 394-451: handle_ai_execute.  An action
matching no branch is ignored; after a successful create the active object is
renamed and broadcast as one object_add envelope; after a delete the removal
is broadcast as one object_delete envelope.  A raised exception leaves the
mutations performed before it and is reported to the dispatcher catch. -/
def handle_ai_execute (e : Engine) (payload : Json) :
    (Engine × List OutMsg) × Option String :=
  match payload with
  | Json.obj pfields =>
    let action := lookupField pfields ("action")
    let paramsJ := (lookupField pfields ("params")).getD (Json.obj [])
    if jsonEqStrOpt action ("create_object") then
      match paramsJ with
      | Json.obj params =>
        (match strUpper ((lookupField params ("type")).getD (Json.str ("CUBE"))) with
         | none => ((e, []), some ("AttributeError: upper on a non-string"))
         | some obj_type =>
           let nameJ := (lookupField params ("name")).getD (Json.str ("AI_Object"))
           let locationJ := (lookupField params ("position")).getD
               (Json.arr [Json.num 0, Json.num 0, Json.num 0])
           match primitive_branch e.scene obj_type locationJ with
           | (scene1, some err) => (({ e with scene := scene1 }, []), some err)
           | (scene1, none) =>
             match scene1.active_object with
             | none => (({ e with scene := scene1 }, []), none)
             | some active =>
               match nameJ with
               | Json.str new_name =>
                 let scene2 := rename_object scene1 active new_name
                 (match scene2.getObject new_name with
                  | some objA =>
                    (({ e with scene := scene2 },
                      sendOut e ("object_add") (get_object_data scene2 objA)), none)
                  | none => (({ e with scene := scene2 }, []), none))
               | _ => (({ e with scene := scene1 }, []),
                       some ("TypeError: object name must be a string")))
      | _ => ((e, []), some ("AttributeError: params is not a dict"))
    else if jsonEqStrOpt action ("delete_object") then
      match paramsJ with
      | Json.obj params =>
        (match pyOr ((lookupField params ("objectId")).getD Json.null)
                    ((lookupField params ("name")).getD Json.null) with
         | Json.str obj_name =>
           (match e.scene.getObject obj_name with
            | none => ((e, []), none)
            | some _ =>
              (({ e with scene := remove_object e.scene obj_name },
                sendOut e ("object_delete")
                  (Json.obj [(("objectId"), Json.str obj_name)])), none))
         | _ => ((e, []), some ("TypeError: objects.get expects a string name")))
      | _ => ((e, []), some ("AttributeError: params is not a dict"))
    else if jsonEqStrOpt action ("modify_mesh") then
      match paramsJ with
      | Json.obj params =>
        (match strUpper ((lookupField params ("modifier")).getD (Json.str (""))) with
         | none => ((e, []), some ("AttributeError: upper on a non-string"))
         | some modifier =>
           match (lookupField params ("objectId")).getD Json.null with
           | Json.str obj_name =>
             (match e.scene.getObject obj_name with
              | none => ((e, []), none)
              | some obj =>
                if obj.type == ("MESH") then modify_mesh_apply e obj_name modifier params
                else ((e, []), none))
           | _ => ((e, []), some ("TypeError: objects.get expects a string name")))
      | _ => ((e, []), some ("AttributeError: params is not a dict"))
    else ((e, []), none)
  | _ => ((e, []), some ("AttributeError: payload is not a dict"))

/-! ## Inbound dispatcher -/

/-- Source bisect_sync_v2.py lines 457-523: the body of the per-message try
block, after json.loads succeeded.  The sender-role check precedes every
handler; a message whose payload carries the own role marker is dropped with
no effect at all.  The joined, scene_request, transform, object_select,
material_assign, material_update and ai_execute branches mutate state or
emit; client_joined and client_left only print; any other type falls
through. -/
def handle_message (e : Engine) (j : Json) : (Engine × List OutMsg) × Option String :=
  match j with
  | Json.obj mfields =>
    let msg_type := lookupField mfields ("type")
    let payload := (lookupField mfields ("payload")).getD (Json.obj [])
    (match payload with
     | Json.obj pfields =>
       let sender := (lookupField pfields ("_senderType")).getD (Json.str (""))
       if jsonEqStr sender ("blender") then ((e, []), none)
       else if jsonEqStrOpt msg_type ("joined") then
         (({ e with client_id := (lookupField pfields ("clientId")).getD (Json.str ("")) },
           []), none)
       else if jsonEqStrOpt msg_type ("scene_request") then
         ((e, send_scene_state e), none)
       else if jsonEqStrOpt msg_type ("transform") then
         let obj_id := lookupField pfields ("objectId")
         let position := (lookupField pfields ("position")).getD
             (Json.arr [Json.num 0, Json.num 0, Json.num 0])
         let rotation := (lookupField pfields ("rotation")).getD
             (Json.arr [Json.num 0, Json.num 0, Json.num 0, Json.num 1])
         let scale := (lookupField pfields ("scale")).getD
             (Json.arr [Json.num 1, Json.num 1, Json.num 1])
         let r := apply_transform e.scene e.ignore_next_update obj_id position rotation scale
         (({ e with scene := r.1.1, ignore_next_update := r.1.2 }, []), r.2)
       else if jsonEqStrOpt msg_type ("object_select") then
         let r := object_select e.scene ((lookupField pfields ("objectIds")).getD (Json.arr []))
         (({ e with scene := r.1 }, []), r.2)
       else if jsonEqStrOpt msg_type ("material_assign") then
         let r := apply_material e.scene (lookupField pfields ("objectId"))
             ((lookupField pfields ("material")).getD (Json.obj []))
         (({ e with scene := r.1 }, []), r.2)
       else if jsonEqStrOpt msg_type ("material_update") then
         let r := material_update e.scene (lookupField pfields ("materialId"))
             ((lookupField pfields ("properties")).getD (Json.obj []))
         (({ e with scene := r.1 }, []), r.2)
       else if jsonEqStrOpt msg_type ("ai_execute") then
         handle_ai_execute e payload
       else ((e, []), none)
     | _ => ((e, []), some ("AttributeError: payload is not a dict")))
  | _ => ((e, []), some ("AttributeError: message is not a dict"))

/-- Error line printed by the catch of the dispatcher loop (source line
526). -/
def error_log (msg : String) : String :=
  ("[Bisect Sync v2] Message processing error: " ++ msg)

/-- One iteration of the dispatcher loop (source lines 456-526): json.loads
and the message body run inside a try whose except prints one line and keeps
draining; the state and emissions produced before a raise are kept. -/
def dispatch_one (e : Engine) (raw : RawMsg) : Engine × List OutMsg × List String :=
  match json_loads raw with
  | Except.error msg => (e, [], [error_log msg])
  | Except.ok j =>
    match handle_message e j with
    | ((e1, out), none) => (e1, out, [])
    | ((e1, out), some err) => (e1, out, [error_log err])

/-- Source bisect_sync_v2.py lines 454-526: process_incoming_messages drains
the whole queue in order, one dispatch_one per frame. -/
def process_incoming_messages (e : Engine) : List RawMsg → Engine × List OutMsg × List String
  | [] => (e, [], [])
  | raw :: rest =>
    let step := dispatch_one e raw
    let next := process_incoming_messages step.1 rest
    (next.1, step.2.1 ++ next.2.1, step.2.2 ++ next.2.2)

/-! ## Outbound scan: rate gate and echo guard -/

/-- Minimum sync interval in seconds, sync_state.sync_interval = 0.033
(source line 107). -/
def sync_interval : ℚ := (0.033 : ℚ)

/-- One entry of depsgraph.updates: the update target when it is an Object
(none models a non-Object datablock update), and the is_updated_transform
flag. -/
structure DepsUpdate where
  id_obj : Option BObject
  is_updated_transform : Bool

/-- Loop body of depsgraph_update_handler (source lines 545-555): per entity,
the EchoGuard membership test comes first and consumes the entry without
emission; otherwise a MESH object with an updated transform is sent. -/
def scan_updates (e : Engine) (ignore : List String) :
    List DepsUpdate → List String × List OutMsg
  | [] => (ignore, [])
  | u :: rest =>
    match u.id_obj with
    | none => scan_updates e ignore rest
    | some obj =>
      if obj.name ∈ ignore then
        scan_updates e (removeSet obj.name ignore) rest
      else if obj.type == ("MESH") && u.is_updated_transform then
        let r := scan_updates e ignore rest
        (r.1, send_transform e obj ++ r.2)
      else scan_updates e ignore rest

/-- Source bisect_sync_v2.py lines 533-555: depsgraph_update_handler.  The
connected check and the rate gate precede everything; when the gate is under
the interval the whole notification is dropped with no state change at all;
when it opens, the last accepted timestamp is set to now and the update list
is scanned.  The v1 handler (bisect_sync.py lines 298-315) is identical
except that it has no EchoGuard membership test. -/
def depsgraph_update_handler (e : Engine) (now : ℚ) (updates : List DepsUpdate) :
    Engine × List OutMsg :=
  if !e.connected then (e, [])
  else if now - e.last_sync_time < sync_interval then (e, [])
  else
    let e1 := { e with last_sync_time := now }
    let r := scan_updates e1 e1.ignore_next_update updates
    ({ e1 with ignore_next_update := r.1 }, r.2)

/-! ## Auxiliary definitions for the statements -/

/-- Field access on a JSON object, the dict.get of a decoded payload. -/
def Json.get : Json → String → Option Json
  | Json.obj fields, key => lookupField fields key
  | _, _ => none

/-- Whether a JSON value is a dict, the shape test governing which inbound
payload values survive the dict.get accesses of the dispatcher. -/
def Json.isObj : Json → Bool
  | Json.obj _ => true
  | _ => false

/-- Recognized message types, the constants of class MessageType (source
lines 52-91). -/
def recognized_types : List String :=
  [("join"), ("leave"), ("ping"), ("pong"), ("scene_state"), ("scene_request"),
   ("object_add"), ("object_delete"), ("object_select"), ("object_rename"),
   ("transform"), ("transform_batch"), ("material_assign"), ("material_update"),
   ("material_create"), ("hierarchy_update"), ("ai_command"), ("ai_response"),
   ("ai_execute"), ("ai_vision_request"), ("ai_vision_response"), ("smart_edit"),
   ("smart_edit_result"), ("error")]

/-- Wire encoding of a vector as the protocol sends positions and scales. -/
def vecJson (v : Vec3) : Json :=
  Json.arr [Json.num v.x, Json.num v.y, Json.num v.z]

/-- Wire encoding of a rotation in the transmission order x, y, z, w. -/
def quatJsonXYZW (q : Quat) : Json :=
  Json.arr [Json.num q.x, Json.num q.y, Json.num q.z, Json.num q.w]

/-- Sample MESH object used by the concrete scenarios. -/
def sample_cube : BObject := new_mesh_object ("Cube") ⟨0, 0, 0⟩

/-- Sample MESH object in quaternion rotation mode. -/
def quat_cube : BObject :=
  { new_mesh_object ("Cube") ⟨0, 0, 0⟩ with rotation_mode := ("QUATERNION") }

/-- Sample scene holding one cube. -/
def sample_scene : Scene :=
  { objects := [sample_cube], materials := [], selected := [],
    active_object := some ("Cube") }

/-- Sample scene holding one quaternion-mode cube. -/
def quat_scene : Scene :=
  { objects := [quat_cube], materials := [], selected := [], active_object := none }

/-- Sample connected engine state used by the concrete scenarios. -/
def sample_engine : Engine :=
  { scene := sample_scene, connected := true, ws := true,
    session_id := ("scene42"), client_id := Json.str (""), last_sync_time := 0,
    ignore_next_update := [], selected_objects := [] }

/-- Sample depsgraph notification entry: the cube with an updated transform. -/
def sample_update : DepsUpdate := ⟨some sample_cube, true⟩

/-- Identity rotation as transmitted on the wire in x, y, z, w order. -/
def identity_wire_rotation : Json :=
  Json.arr [Json.num 0, Json.num 0, Json.num 0, Json.num 1]

/-- Payload of the scenario D create command. -/
def c8_payload : Json :=
  Json.obj [(("action"), Json.str ("create_object")),
    (("params"), Json.obj [(("type"), Json.str ("SPHERE")),
      (("name"), Json.str ("AI_Ball")),
      (("position"), Json.arr [Json.num 0, Json.num 0, Json.num 1])])]

/-- Full ai_execute envelope of the scenario D create command. -/
def c8_msg : Json :=
  Json.obj [(("type"), Json.str ("ai_execute")), (("payload"), c8_payload)]

/-- Engine after applying a received transform envelope for entity E carrying
a well-formed position, rotation and scale: the scene and EchoGuard
components of apply_transform replace those of the engine, exactly as the
transform branch of the dispatcher stores them. -/
def c1_apply (e : Engine) (E : String) (p s : Vec3) (r : Quat) : Engine :=
  let ar := apply_transform e.scene e.ignore_next_update (some (Json.str E))
      (vecJson p) (quatJsonXYZW r) (vecJson s)
  { e with scene := ar.1.1, ignore_next_update := ar.1.2 }

/-- Sample engine whose EchoGuard holds the cube, as after a remote transform
for it was applied. -/
def guarded_engine : Engine :=
  { sample_engine with ignore_next_update := [("Cube")] }

/-- Engine after the remote transform for E was applied and the first
gate-open scan (whose head update carries the object named n1) consumed the
guard entry at time t1. -/
def c1_mid (e : Engine) (E : String) (p s : Vec3) (r : Quat) (t1 : ℚ)
    (n1 : String) : Engine :=
  { c1_apply e E p s r with
    last_sync_time := t1,
    ignore_next_update := removeSet n1 (c1_apply e E p s r).ignore_next_update }

/-! # Theorems -/

/-- Set insertion contains the inserted element. -/
theorem mem_insertSet (a : String) (l : List String) : a ∈ insertSet a l := by
  unfold insertSet
  split
  · assumption
  · exact List.mem_cons_self a l

/-- Set removal eliminates the removed element. -/
theorem not_mem_removeSet (a : String) (l : List String) : a ∉ removeSet a l := by
  simp [removeSet]

/-- A dict value survives the Python or-default used for the payload
argument: the empty dict is replaced by the (equal) empty dict. -/
theorem pyOr_obj (l : List (String × Json)) :
    pyOr (Json.obj l) (Json.obj []) = Json.obj l := by
  cases l <;> simp [pyOr, jsonFalsy]

/-- A non-empty string survives the Python or-default used for the session
id. -/
theorem pyOrStr_of_ne (a b : String) (h : a ≠ ("")) : pyOrStr a b = a := by
  simp [pyOrStr, h]

/-- C4 counterexample.  The claim states that the first frame sent on open
for session scene42 is the envelope whose payload carries the client-type
marker host.  The frame the source sends is not that envelope: its payload
carries the marker blender. -/
theorem join_frame_clientType_counterexample :
    on_open_frames 0 ("scene42") ≠ [spec_claimed_join_frame]
    ∧ ((on_open_frames 0 ("scene42")).headD Json.null).get ("payload") =
        some (Json.obj [(("sessionId"), Json.str ("scene42")),
                        (("clientType"), Json.str ("blender"))])
    ∧ Json.str ("blender") ≠ Json.str ("host") := by
  refine ⟨?_, rfl, ?_⟩
  · intro h
    have h2 := congrArg (fun l => (l.headD Json.null).get ("payload")) h
    have h3 : some (Json.obj [(("sessionId"), Json.str ("scene42")),
                              (("clientType"), Json.str ("blender"))]) =
        some (Json.obj [(("sessionId"), Json.str ("scene42")),
                        (("clientType"), Json.str ("host"))]) := h2
    injection h3 with h4
    injection h4 with h5
    injection h5 with p1 h6
    injection h6 with p2 h7
    injection p2 with pk pv
    injection pv with hs
    exact absurd hs (by decide)
  · intro h
    injection h with hs
    exact absurd hs (by decide)

/-- C4 (amended).  When a connection to a session opens, the on_open callback
sends exactly one frame before yielding to the receive loop: the join
envelope carrying the session id at envelope level and inside the payload,
the client-type marker blender, and the stamped millisecond timestamp. -/
theorem join_handshake (t : ℚ) (sid : String) :
    on_open_frames t sid =
      [Json.obj [(("type"), Json.str ("join")),
        (("sessionId"), Json.str sid),
        (("timestamp"), Json.num ((timestamp_ms t : ℤ) : ℚ)),
        (("payload"), Json.obj [(("sessionId"), Json.str sid),
                                (("clientType"), Json.str ("blender"))])]] := by
  simp [on_open_frames, create_message, pyOrStr, pyOr, jsonFalsy]

/-- C6.  Round-trip of the codec: decoding the wire frame produced by
create_message returns an envelope with the same type, the same session id
and the same payload; an omitted payload encodes as the empty map; and the
stamped integer-millisecond timestamps are monotone in the wall clock. -/
theorem codec_roundtrip (t t1 t2 : ℚ) (ssid sid ty : String)
    (fields : List (String × Json)) (hty : ty ∈ recognized_types)
    (hsid : sid ≠ ("")) (ht : t1 ≤ t2) :
    decode (RawMsg.parsed (create_message t ssid ty (some (Json.obj fields)) (some sid))) =
      Except.ok { type := some (Json.str ty), sessionId := some (Json.str sid),
                  timestamp := some (Json.num ((timestamp_ms t : ℤ) : ℚ)),
                  payload := Json.obj fields }
    ∧ (create_message t ssid ty none none).get ("payload") = some (Json.obj [])
    ∧ timestamp_ms t1 ≤ timestamp_ms t2 := by
  refine ⟨?_, rfl, ?_⟩
  · rw [show decode (RawMsg.parsed (create_message t ssid ty (some (Json.obj fields))
          (some sid))) =
        Except.ok { type := some (Json.str ty),
                    sessionId := some (Json.str (pyOrStr sid ssid)),
                    timestamp := some (Json.num ((timestamp_ms t : ℤ) : ℚ)),
                    payload := pyOr (Json.obj fields) (Json.obj []) } from rfl,
        pyOr_obj, pyOrStr_of_ne sid ssid hsid]
  · exact Int.floor_le_floor (mul_le_mul_of_nonneg_right ht (by norm_num))

/-- C6 witness: the round trip evaluated at a concrete type, session id,
payload and pair of clock readings. -/
theorem codec_roundtrip_witness :
    decode (RawMsg.parsed (create_message 1 ("state") ("transform")
        (some (Json.obj [(("objectId"), Json.str ("Cube"))])) (some ("scene42")))) =
      Except.ok { type := some (Json.str ("transform")),
                  sessionId := some (Json.str ("scene42")),
                  timestamp := some (Json.num ((timestamp_ms 1 : ℤ) : ℚ)),
                  payload := Json.obj [(("objectId"), Json.str ("Cube"))] }
    ∧ (create_message 1 ("state") ("transform") none none).get ("payload") =
        some (Json.obj [])
    ∧ timestamp_ms 0 ≤ timestamp_ms 1 :=
  codec_roundtrip 1 0 1 ("state") ("scene42") ("transform")
    [(("objectId"), Json.str ("Cube"))] (by decide) (by decide) (by norm_num)

/-- C5.  Self-echo discard: an inbound envelope whose payload carries the
sender-role marker equal to the own role of this client (blender) is dropped
by the dispatcher before any handler: the engine state is unchanged, nothing
is emitted and nothing is logged, whatever the message type and the rest of
the payload. -/
theorem self_echo_discard (e : Engine) (mfields pfields : List (String × Json))
    (hp : lookupField mfields ("payload") = some (Json.obj pfields))
    (hs : lookupField pfields ("_senderType") = some (Json.str ("blender"))) :
    dispatch_one e (RawMsg.parsed (Json.obj mfields)) = (e, [], []) := by
  simp [dispatch_one, json_loads, handle_message, hp, hs, jsonEqStr]

/-- C5 witness: a transform envelope for the sample cube tagged with the own
sender role is discarded by the sample engine. -/
theorem self_echo_discard_witness :
    dispatch_one sample_engine (RawMsg.parsed (Json.obj
      [(("type"), Json.str ("transform")),
       (("payload"), Json.obj [(("_senderType"), Json.str ("blender")),
                               (("objectId"), Json.str ("Cube"))])])) =
      (sample_engine, [], []) :=
  self_echo_discard sample_engine
    [(("type"), Json.str ("transform")),
     (("payload"), Json.obj [(("_senderType"), Json.str ("blender")),
                             (("objectId"), Json.str ("Cube"))])]
    [(("_senderType"), Json.str ("blender")), (("objectId"), Json.str ("Cube"))]
    rfl rfl

/-- C7 counterexample.  The claim states that a frame missing the type field
fails to decode and that the dispatcher logs and skips it.  The source skips
such a frame without logging anything: json.loads succeeds, no branch of the
dispatch chain matches, and the log list of the tick stays empty. -/
theorem missing_type_frame_not_logged :
    process_incoming_messages sample_engine [RawMsg.parsed (Json.obj [])] =
      (sample_engine, [], []) := by
  rfl

/-- C7 (amended).  Malformed-frame resilience: a frame that json.loads
rejects is logged and skipped, the failure never escapes the dispatcher, and
every frame queued after it is still drained and processed identically
(first conjunct).  A well-formed frame missing the type field is always
skipped with the engine and emissions untouched and the rest of the queue
processed identically; whether it is logged depends on its payload field:
when the payload field is absent or a dict, the frame falls through the
dispatch chain silently with no log line (second and third conjuncts);
when the payload field holds a non-dict value, the dict access on it raises,
the exception is caught and exactly one line is logged (fourth conjunct). -/
theorem malformed_frame_resilience (e : Engine) (s : String) (rest : List RawMsg)
    (fields : List (String × Json))
    (hty : lookupField fields ("type") = none) :
    process_incoming_messages e (RawMsg.invalid s :: rest) =
      ((process_incoming_messages e rest).1,
       (process_incoming_messages e rest).2.1,
       error_log ("json.decoder.JSONDecodeError near: " ++ s) ::
         (process_incoming_messages e rest).2.2)
    ∧ (lookupField fields ("payload") = none →
        process_incoming_messages e (RawMsg.parsed (Json.obj fields) :: rest) =
          process_incoming_messages e rest)
    ∧ (∀ pfields : List (String × Json),
        lookupField fields ("payload") = some (Json.obj pfields) →
        process_incoming_messages e (RawMsg.parsed (Json.obj fields) :: rest) =
          process_incoming_messages e rest)
    ∧ (∀ v : Json, lookupField fields ("payload") = some v → v.isObj = false →
        process_incoming_messages e (RawMsg.parsed (Json.obj fields) :: rest) =
          ((process_incoming_messages e rest).1,
           (process_incoming_messages e rest).2.1,
           error_log ("AttributeError: payload is not a dict") ::
             (process_incoming_messages e rest).2.2)) := by
  refine ⟨rfl, ?_, ?_, ?_⟩
  · intro hpl
    simp [process_incoming_messages, dispatch_one, json_loads, handle_message,
      hty, hpl, jsonEqStrOpt]
  · intro pfields hpl
    simp [process_incoming_messages, dispatch_one, json_loads, handle_message,
      hty, hpl, jsonEqStrOpt]
  · intro v hpl hv
    cases v <;> simp_all [process_incoming_messages, dispatch_one, json_loads,
      handle_message, hty, jsonEqStrOpt, Json.isObj]

/-- C7 witness: the literal unparseable text contributes exactly one log line
and the scene_request frame after it is still processed; a frame missing
type with no payload field and one whose payload is a dict are both skipped
silently; a frame missing type whose payload is the number 5 is skipped with
exactly one caught-exception log line — in every case the rest of the queue
is processed identically. -/
theorem malformed_frame_resilience_witness :
    (process_incoming_messages sample_engine
        (RawMsg.invalid ("\x7bnot json") ::
         [RawMsg.parsed (Json.obj [(("type"), Json.str ("scene_request"))])]) =
      ((process_incoming_messages sample_engine
          [RawMsg.parsed (Json.obj [(("type"), Json.str ("scene_request"))])]).1,
       (process_incoming_messages sample_engine
          [RawMsg.parsed (Json.obj [(("type"), Json.str ("scene_request"))])]).2.1,
       error_log ("json.decoder.JSONDecodeError near: " ++ ("\x7bnot json")) ::
         (process_incoming_messages sample_engine
            [RawMsg.parsed (Json.obj [(("type"), Json.str ("scene_request"))])]).2.2))
    ∧ process_incoming_messages sample_engine
        (RawMsg.parsed (Json.obj []) ::
         [RawMsg.parsed (Json.obj [(("type"), Json.str ("scene_request"))])]) =
        process_incoming_messages sample_engine
          [RawMsg.parsed (Json.obj [(("type"), Json.str ("scene_request"))])]
    ∧ process_incoming_messages sample_engine
        (RawMsg.parsed (Json.obj [(("payload"), Json.obj [(("k"), Json.num 1)])]) ::
         [RawMsg.parsed (Json.obj [(("type"), Json.str ("scene_request"))])]) =
        process_incoming_messages sample_engine
          [RawMsg.parsed (Json.obj [(("type"), Json.str ("scene_request"))])]
    ∧ process_incoming_messages sample_engine
        (RawMsg.parsed (Json.obj [(("payload"), Json.num 5)]) ::
         [RawMsg.parsed (Json.obj [(("type"), Json.str ("scene_request"))])]) =
        ((process_incoming_messages sample_engine
            [RawMsg.parsed (Json.obj [(("type"), Json.str ("scene_request"))])]).1,
         (process_incoming_messages sample_engine
            [RawMsg.parsed (Json.obj [(("type"), Json.str ("scene_request"))])]).2.1,
         error_log ("AttributeError: payload is not a dict") ::
           (process_incoming_messages sample_engine
              [RawMsg.parsed (Json.obj [(("type"), Json.str ("scene_request"))])]).2.2) :=
  ⟨(malformed_frame_resilience sample_engine ("\x7bnot json")
      [RawMsg.parsed (Json.obj [(("type"), Json.str ("scene_request"))])] [] rfl).1,
   (malformed_frame_resilience sample_engine ("")
      [RawMsg.parsed (Json.obj [(("type"), Json.str ("scene_request"))])] [] rfl).2.1
      rfl,
   (malformed_frame_resilience sample_engine ("")
      [RawMsg.parsed (Json.obj [(("type"), Json.str ("scene_request"))])]
      [(("payload"), Json.obj [(("k"), Json.num 1)])] rfl).2.2.1
      [(("k"), Json.num 1)] rfl,
   (malformed_frame_resilience sample_engine ("")
      [RawMsg.parsed (Json.obj [(("type"), Json.str ("scene_request"))])]
      [(("payload"), Json.num 5)] rfl).2.2.2 (Json.num 5) rfl rfl⟩

/-- C9.  Send failure semantics: once the connected flag is cleared (by the
on_error callback, or because no connection was ever established), or when no
socket object exists, send_message returns False and nothing reaches the
wire; and when the underlying socket send itself throws, the exception is
caught inside send_message, which returns False instead of raising. -/
theorem send_failfast (e : Engine) (now : ℚ) (ty : String) (p : Json)
    (s : SockRes) (m : String) :
    (e.connected = false → send_message_result e now ty p s = (false, []))
    ∧ (e.ws = false → send_message_result e now ty p s = (false, []))
    ∧ send_message_result (on_error e) now ty p s = (false, [])
    ∧ send_message_result e now ty p (SockRes.exn m) = (false, []) := by
  refine ⟨?_, ?_, ?_, ?_⟩
  · intro h
    simp [send_message_result, h]
  · intro h
    simp [send_message_result, h]
  · simp [send_message_result, on_error]
  · unfold send_message_result
    split
    · rfl
    · rfl

/-- C9 witness: the sample engine after a socket error refuses to send, and a
throwing socket send on the healthy sample engine yields False rather than an
exception. -/
theorem send_failfast_witness :
    ((on_error sample_engine).connected = false →
      send_message_result (on_error sample_engine) 1 ("transform") (Json.obj [])
        SockRes.ok = (false, []))
    ∧ ((on_error sample_engine).ws = false →
      send_message_result (on_error sample_engine) 1 ("transform") (Json.obj [])
        SockRes.ok = (false, []))
    ∧ send_message_result (on_error (on_error sample_engine)) 1 ("transform")
        (Json.obj []) SockRes.ok = (false, [])
    ∧ send_message_result (on_error sample_engine) 1 ("transform") (Json.obj [])
        (SockRes.exn ("Connection reset")) = (false, []) :=
  send_failfast (on_error sample_engine) 1 ("transform") (Json.obj [])
    SockRes.ok ("Connection reset")

/-- C3 (code bug in the v1 add-on).  Both add-ons transmit rotations in the
order x, y, z, w (first conjunct), and the v2 apply path reconstructs the
rotation with the fourth transmitted component as the scalar part, so the
identity wire rotation 0,0,0,1 applies as the identity quaternion (second
conjunct).  The v1 apply path instead feeds the transmitted list straight
into the native w, x, y, z constructor order, so the same identity wire
rotation applies as the quaternion with scalar part 0 — a half-turn about the
z axis — which differs from the identity (third and fourth conjuncts). -/
theorem quaternion_convention_v1_bug :
    (get_object_transform { quat_cube with rotation_quaternion := ⟨5, 2, 3, 4⟩ }).get
        ("rotation") = some (Json.arr [Json.num 2, Json.num 3, Json.num 4, Json.num 5])
    ∧ ((apply_transform quat_scene [] (some (Json.str ("Cube")))
          (Json.arr [Json.num 0, Json.num 0, Json.num 0]) identity_wire_rotation
          (Json.arr [Json.num 1, Json.num 1, Json.num 1])).1.1.getObject
            ("Cube")).map (fun o => o.rotation_quaternion) = some identityQuat
    ∧ ((v1_apply_transform quat_scene (some (Json.str ("Cube")))
          (Json.arr [Json.num 0, Json.num 0, Json.num 0]) identity_wire_rotation
          (Json.arr [Json.num 1, Json.num 1, Json.num 1])).1.getObject
            ("Cube")).map (fun o => o.rotation_quaternion) = some ⟨0, 0, 0, 1⟩
    ∧ (⟨0, 0, 0, 1⟩ : Quat) ≠ identityQuat := by
  refine ⟨rfl, rfl, rfl, by decide⟩

/-- C8.  Create command: dispatching the ai_execute envelope of scenario D on
the sample engine creates a sphere primitive renamed AI_Ball at position
0, 0, 1 (last conjunct: the object exists in the resulting scene with exactly
the fresh-primitive attributes at that location), emits exactly one
object_add envelope whose payload describes the new object — identity
rotation, unit scale, no parent, visible, no material — and raises nothing
(empty log list). -/
theorem create_command :
    (dispatch_one sample_engine (RawMsg.parsed c8_msg)).2.1 =
      [⟨("object_add"), Json.obj
        [(("id"), Json.str ("AI_Ball")), (("name"), Json.str ("AI_Ball")),
         (("type"), Json.str ("MESH")),
         (("position"), Json.arr [Json.num 0, Json.num 0, Json.num 1]),
         (("rotation"), Json.arr [Json.num 0, Json.num 0, Json.num 0, Json.num 1]),
         (("scale"), Json.arr [Json.num 1, Json.num 1, Json.num 1]),
         (("parent"), Json.null), (("visible"), Json.bool true)]⟩]
    ∧ (dispatch_one sample_engine (RawMsg.parsed c8_msg)).2.2 = []
    ∧ (dispatch_one sample_engine (RawMsg.parsed c8_msg)).1.scene.getObject
        ("AI_Ball") = some (new_mesh_object ("AI_Ball") ⟨0, 0, 1⟩) := by
  refine ⟨rfl, rfl, rfl⟩

/-- A disconnected engine ignores the notification entirely. -/
theorem handler_disconnected (e : Engine) (now : ℚ) (u : List DepsUpdate)
    (h : e.connected = false) :
    depsgraph_update_handler e now u = (e, []) := by
  simp [depsgraph_update_handler, h]

/-- A notification under the minimum interval is dropped whole: no state
change and no output. -/
theorem handler_gate_closed (e : Engine) (now : ℚ) (u : List DepsUpdate)
    (h : now - e.last_sync_time < sync_interval) :
    depsgraph_update_handler e now u = (e, []) := by
  by_cases hc : e.connected
  · simp [depsgraph_update_handler, hc, h]
  · simp [depsgraph_update_handler, hc]

/-- The outbound handler never changes the connected flag or the socket
presence. -/
theorem handler_connected (e : Engine) (now : ℚ) (u : List DepsUpdate) :
    (depsgraph_update_handler e now u).1.connected = e.connected
    ∧ (depsgraph_update_handler e now u).1.ws = e.ws := by
  unfold depsgraph_update_handler
  split
  · exact ⟨rfl, rfl⟩
  · split
    · exact ⟨rfl, rfl⟩
    · exact ⟨rfl, rfl⟩

/-- The last accepted timestamp moves to now exactly when the handler runs
connected with the gate open, and is untouched otherwise. -/
theorem handler_last (e : Engine) (now : ℚ) (u : List DepsUpdate) :
    (depsgraph_update_handler e now u).1.last_sync_time =
      if e.connected = true ∧ sync_interval ≤ now - e.last_sync_time then now
      else e.last_sync_time := by
  by_cases hc : e.connected
  · by_cases hg : now - e.last_sync_time < sync_interval
    · simp [depsgraph_update_handler, hc, hg, not_le.mpr hg]
    · simp [depsgraph_update_handler, hc, hg, not_lt.mp hg]
  · simp [depsgraph_update_handler, hc, Bool.not_eq_true e.connected ▸ hc]

/-- A gate-open scan whose notification starts with an entity held by the
EchoGuard consumes the guard entry and emits nothing for it. -/
theorem handler_guard_hit (e : Engine) (now : ℚ) (obj : BObject)
    (hc : e.connected = true)
    (hg : sync_interval ≤ now - e.last_sync_time)
    (hm : obj.name ∈ e.ignore_next_update) :
    depsgraph_update_handler e now [⟨some obj, true⟩] =
      ({ e with last_sync_time := now,
                ignore_next_update := removeSet obj.name e.ignore_next_update }, []) := by
  unfold depsgraph_update_handler
  simp [hc, not_lt.mpr hg, scan_updates, hm]

/-- A gate-open scan whose notification starts with an unguarded MESH entity
with an updated transform emits the transform envelope for it. -/
theorem handler_unguarded_emit (e : Engine) (now : ℚ) (obj : BObject)
    (hc : e.connected = true) (hw : e.ws = true)
    (hg : sync_interval ≤ now - e.last_sync_time)
    (ht : obj.type = ("MESH"))
    (hm : obj.name ∉ e.ignore_next_update) :
    depsgraph_update_handler e now [⟨some obj, true⟩] =
      ({ e with last_sync_time := now },
       [⟨("transform"), send_transform_payload obj⟩]) := by
  unfold depsgraph_update_handler
  simp [hc, hw, not_lt.mpr hg, scan_updates, hm, ht, send_transform, sendOut]

/-- C2.  Rate gate: the last accepted timestamp is updated exactly when the
gate opens (first conjunct); a notification under the interval is dropped
whole, with no state change, no queuing and no partial forwarding (second
conjunct); of two notifications less than the interval apart, at most one
produces an outbound batch (third conjunct); and a notification arriving
once the interval has elapsed since the last accepted batch, while connected
with a live socket, always produces an outbound batch when it carries a
changed MESH entity not held by the EchoGuard (fourth conjunct). -/
theorem rate_gate (e : Engine) (t1 t2 : ℚ) (u1 u2 : List DepsUpdate) :
    ((depsgraph_update_handler e t1 u1).1.last_sync_time =
       if e.connected = true ∧ sync_interval ≤ t1 - e.last_sync_time then t1
       else e.last_sync_time)
    ∧ (t1 - e.last_sync_time < sync_interval →
        depsgraph_update_handler e t1 u1 = (e, []))
    ∧ (t2 - t1 < sync_interval →
        (depsgraph_update_handler e t1 u1).2 = [] ∨
        (depsgraph_update_handler (depsgraph_update_handler e t1 u1).1 t2 u2).2 = [])
    ∧ (e.connected = true → e.ws = true → sync_interval ≤ t1 - e.last_sync_time →
        ∀ (obj : BObject) (rest : List DepsUpdate), obj.type = ("MESH") →
          obj.name ∉ e.ignore_next_update →
          (depsgraph_update_handler e t1 (⟨some obj, true⟩ :: rest)).2 ≠ []) := by
  refine ⟨handler_last e t1 u1, fun h => handler_gate_closed e t1 u1 h, ?_, ?_⟩
  · intro h12
    by_cases hc : e.connected = true
    · by_cases hg : t1 - e.last_sync_time < sync_interval
      · exact Or.inl (by rw [handler_gate_closed e t1 u1 hg])
      · refine Or.inr ?_
        have hl : (depsgraph_update_handler e t1 u1).1.last_sync_time = t1 := by
          rw [handler_last]
          simp [hc, not_lt.mp hg]
        rw [handler_gate_closed (depsgraph_update_handler e t1 u1).1 t2 u2
          (by rw [hl]; exact h12)]
    · exact Or.inl (by
        rw [handler_disconnected e t1 u1 (Bool.not_eq_true e.connected ▸ hc)])
  · intro hc hw hg obj rest ht hm
    unfold depsgraph_update_handler
    simp [hc, hw, not_lt.mpr hg, scan_updates, hm, ht, send_transform, sendOut]

/-- C2 witness: on the sample engine a notification 10 milliseconds after the
last accepted batch is dropped whole, and one a full second after it emits a
batch. -/
theorem rate_gate_witness :
    depsgraph_update_handler sample_engine ((1 : ℚ)/100) [sample_update] =
      (sample_engine, [])
    ∧ (depsgraph_update_handler sample_engine 1
        (⟨some sample_cube, true⟩ :: [])).2 ≠ [] := by
  constructor
  · exact (rate_gate sample_engine ((1 : ℚ)/100) 1 [sample_update] []).2.1
      (by norm_num [sample_engine, sync_interval])
  · exact (rate_gate sample_engine 1 1 [] []).2.2.2 rfl rfl
      (by norm_num [sample_engine, sync_interval]) sample_cube [] rfl (by decide)

/-- Applying a received transform for an existing entity inserts it into the
EchoGuard and touches nothing else of the engine bookkeeping. -/
theorem c1_apply_ignore (e : Engine) (E : String) (o : BObject) (p s : Vec3)
    (r : Quat) (hE : e.scene.getObject E = some o) :
    (c1_apply e E p s r).ignore_next_update = insertSet E e.ignore_next_update := by
  simp [c1_apply, apply_transform, hE, vecJson, asVec3, asNum, quatJsonXYZW,
    readQuatXYZW, idx]

/-- C1.  Echo suppression: after a received transform envelope for an
existing entity E has been applied, E is in the EchoGuard (first conjunct);
the next local-mutation notification for E that reaches a gate-open outbound
scan emits nothing and removes E from the EchoGuard (second and third
conjuncts); a subsequent, independent local mutation of E, with no new
EchoGuard insertion and the gate open, emits exactly the outbound transform
envelope for E (fourth and fifth conjuncts). -/
theorem echo_suppression (e : Engine) (E : String) (o obj1 obj2 : BObject)
    (p s : Vec3) (r : Quat) (t1 t2 : ℚ)
    (hE : e.scene.getObject E = some o)
    (hc : e.connected = true) (hw : e.ws = true)
    (hg1 : sync_interval ≤ t1 - e.last_sync_time)
    (hg2 : sync_interval ≤ t2 - t1)
    (h1n : obj1.name = E) (h2n : obj2.name = E) (h2t : obj2.type = ("MESH")) :
    E ∈ (c1_apply e E p s r).ignore_next_update
    ∧ (depsgraph_update_handler (c1_apply e E p s r) t1 [⟨some obj1, true⟩]).2 = []
    ∧ E ∉ (depsgraph_update_handler (c1_apply e E p s r) t1
          [⟨some obj1, true⟩]).1.ignore_next_update
    ∧ (depsgraph_update_handler
        (depsgraph_update_handler (c1_apply e E p s r) t1 [⟨some obj1, true⟩]).1
        t2 [⟨some obj2, true⟩]).2 =
        [⟨("transform"), send_transform_payload obj2⟩]
    ∧ (send_transform_payload obj2).get ("objectId") = some (Json.str E) := by
  have hig := c1_apply_ignore e E o p s r hE
  have hstep1 : depsgraph_update_handler (c1_apply e E p s r) t1 [⟨some obj1, true⟩] =
      (c1_mid e E p s r t1 obj1.name, []) :=
    handler_guard_hit (c1_apply e E p s r) t1 obj1 hc hg1
      (by rw [hig, h1n]; exact mem_insertSet E e.ignore_next_update)
  have hnot : E ∉ (c1_mid e E p s r t1 obj1.name).ignore_next_update := by
    show E ∉ removeSet obj1.name (c1_apply e E p s r).ignore_next_update
    rw [h1n, hig]
    exact not_mem_removeSet E (insertSet E e.ignore_next_update)
  refine ⟨?_, ?_, ?_, ?_, ?_⟩
  · rw [hig]
    exact mem_insertSet E e.ignore_next_update
  · rw [hstep1]
  · rw [hstep1]
    exact hnot
  · rw [hstep1]
    have hemit := handler_unguarded_emit (c1_mid e E p s r t1 obj1.name) t2 obj2
      hc hw hg2 h2t (by rw [h2n]; exact hnot)
    rw [hemit]
  · simp [send_transform_payload, Json.get, lookupField, h2n]

/-- C1 witness: the scenario evaluated on the sample engine and its cube,
with the remote transform moving the cube to 1, 2, 3 and the two gate-open
scans at one and two seconds. -/
theorem echo_suppression_witness :
    ("Cube") ∈ (c1_apply sample_engine ("Cube") ⟨1, 2, 3⟩ ⟨1, 1, 1⟩
        identityQuat).ignore_next_update
    ∧ (depsgraph_update_handler
        (c1_apply sample_engine ("Cube") ⟨1, 2, 3⟩ ⟨1, 1, 1⟩ identityQuat) 1
        [⟨some sample_cube, true⟩]).2 = []
    ∧ ("Cube") ∉ (depsgraph_update_handler
        (c1_apply sample_engine ("Cube") ⟨1, 2, 3⟩ ⟨1, 1, 1⟩ identityQuat) 1
        [⟨some sample_cube, true⟩]).1.ignore_next_update
    ∧ (depsgraph_update_handler
        (depsgraph_update_handler
          (c1_apply sample_engine ("Cube") ⟨1, 2, 3⟩ ⟨1, 1, 1⟩ identityQuat) 1
          [⟨some sample_cube, true⟩]).1
        2 [⟨some sample_cube, true⟩]).2 =
        [⟨("transform"), send_transform_payload sample_cube⟩]
    ∧ (send_transform_payload sample_cube).get ("objectId") =
        some (Json.str ("Cube")) :=
  echo_suppression sample_engine ("Cube") sample_cube sample_cube sample_cube
    ⟨1, 2, 3⟩ ⟨1, 1, 1⟩ identityQuat 1 2 rfl rfl rfl
    (by norm_num [sample_engine, sync_interval])
    (by norm_num [sync_interval]) rfl rfl rfl

/-- C10.  EchoGuard entries survive a closed rate gate: when the first
local-mutation notification for a guarded entity E arrives under the
interval, the whole scan is dropped and the engine — EchoGuard included — is
unchanged, because the gate check precedes the per-entity guard check (first
conjunct); the next gate-open scan containing E then consumes the stale
entry, suppressing what is by then an independent local mutation of E
(second and third conjuncts). -/
theorem echoguard_survives_closed_gate (e : Engine) (E : String)
    (obj1 obj2 : BObject) (t1 t2 : ℚ)
    (hmem : E ∈ e.ignore_next_update)
    (hc : e.connected = true)
    (hg1 : t1 - e.last_sync_time < sync_interval)
    (hg2 : sync_interval ≤ t2 - e.last_sync_time)
    (h1n : obj1.name = E) (h2n : obj2.name = E) :
    depsgraph_update_handler e t1 [⟨some obj1, true⟩] = (e, [])
    ∧ (depsgraph_update_handler e t2 [⟨some obj2, true⟩]).2 = []
    ∧ E ∉ (depsgraph_update_handler e t2 [⟨some obj2, true⟩]).1.ignore_next_update := by
  have hstep2 : depsgraph_update_handler e t2 [⟨some obj2, true⟩] =
      ({ e with
         last_sync_time := t2,
         ignore_next_update := removeSet obj2.name e.ignore_next_update }, []) :=
    handler_guard_hit e t2 obj2 hc hg2 (by rw [h2n]; exact hmem)
  refine ⟨handler_gate_closed e t1 _ hg1, ?_, ?_⟩
  · rw [hstep2]
  · rw [hstep2]
    simp only [h2n]
    exact not_mem_removeSet E e.ignore_next_update

/-- C10 witness: the guarded sample engine dropping a scan ten milliseconds
in and then consuming the stale guard entry at one second. -/
theorem echoguard_survives_closed_gate_witness :
    depsgraph_update_handler guarded_engine ((1 : ℚ)/100)
        [⟨some sample_cube, true⟩] = (guarded_engine, [])
    ∧ (depsgraph_update_handler guarded_engine 1 [⟨some sample_cube, true⟩]).2 = []
    ∧ ("Cube") ∉ (depsgraph_update_handler guarded_engine 1
        [⟨some sample_cube, true⟩]).1.ignore_next_update :=
  echoguard_survives_closed_gate guarded_engine ("Cube") sample_cube sample_cube
    ((1 : ℚ)/100) 1 (by decide) rfl
    (by norm_num [guarded_engine, sample_engine, sync_interval])
    (by norm_num [guarded_engine, sample_engine, sync_interval]) rfl rfl

end BisectSync
